import Mathlib

/-!
Verification of the OTS (on-chain timestamping) consensus module of the
redmansionorg/ots repository against its natural-language specification.

The Go sources are shallowly embedded: 32-byte hashes and 20-byte addresses
are natural numbers (the big-endian value of the byte array), byte strings
are lists of naturals below 256, and fallible operations return a pair of
the (possibly updated) state together with an optional error, mirroring the
Go methods that mutate their receiver and return an error.  Block numbers
and other counters originate from arbitrary-precision chain data
(`*big.Int` headers) and are modelled as unbounded naturals; the `uint64`
truncations that matter to the claims (the `int64` casts inside the
`otsConfirmed` calldata encoder and the `Uint64()` reads of 32-byte ABI
slots) are modelled explicitly with `% 2 ^ 64` and a signed reinterpretation.
-/

set_option maxRecDepth 100000
set_option linter.unusedVariables false

/-! ## Byte-level helpers -/

/-- Big-endian bytes of the low 32 bytes of a natural number
(the byte contents of a `common.Hash`). -/
def bytes32 (n : Nat) : List Nat :=
  (List.range 32).map fun i => n >>> (8 * (31 - i)) &&& 255

/-- Big-endian interpretation of a byte list as a natural number
(`common.BytesToHash` on a 32-byte slice, `big.Int.SetBytes`). -/
def natOfBytes (bs : List Nat) : Nat := bs.foldl (fun acc b => acc * 256 + b) 0

/-- ASCII bytes of a Go string literal. -/
def asciiBytes (s : String) : List Nat := s.toList.map Char.toNat

/-! ## Keccak-256 (the hash used by `crypto.Keccak256`) -/

def u64Mask : Nat := 2 ^ 64 - 1

def rotl64 (x n : Nat) : Nat := ((x <<< n) ||| (x >>> (64 - n))) &&& u64Mask

def keccakRC : List Nat :=
  [1, 32898, 9223372036854808714,
   9223372039002292224, 32907, 2147483649,
   9223372039002292353, 9223372036854808585, 138,
   136, 2147516425, 2147483658,
   2147516555, 9223372036854775947, 9223372036854808713,
   9223372036854808579, 9223372036854808578, 9223372036854775936,
   32778, 9223372039002259466, 9223372039002292353,
   9223372036854808704, 2147483649, 9223372039002292232]

/-- Source lane index of the combined rho-pi step, for each destination
index `x + 5 * y` of the 5x5 lane grid. -/
def keccakSrcIdx : List Nat :=
  [0, 6, 12, 18, 24, 3, 9, 10, 16, 22, 1, 7, 13, 19, 20, 4, 5, 11, 17, 23, 2, 8, 14, 15, 21]

/-- Rotation amount of the combined rho-pi step, for each destination index. -/
def keccakRotAmt : List Nat :=
  [0, 44, 43, 21, 14, 28, 20, 3, 45, 61, 1, 6, 25, 8, 18, 27, 36, 10, 15, 56, 62, 55, 39, 41, 2]

def keccakTheta (s : List Nat) : List Nat :=
  let c := (List.range 5).map fun x =>
    s.getD x 0 ^^^ s.getD (x + 5) 0 ^^^ s.getD (x + 10) 0 ^^^ s.getD (x + 15) 0 ^^^ s.getD (x + 20) 0
  let d := (List.range 5).map fun x => c.getD ((x + 4) % 5) 0 ^^^ rotl64 (c.getD ((x + 1) % 5) 0) 1
  (List.range 25).map fun i => s.getD i 0 ^^^ d.getD (i % 5) 0

def keccakRhoPi (s : List Nat) : List Nat :=
  (List.range 25).map fun i => rotl64 (s.getD (keccakSrcIdx.getD i 0) 0) (keccakRotAmt.getD i 0)

def keccakChi (s : List Nat) : List Nat :=
  (List.range 25).map fun i =>
    let x := i % 5
    let y := i / 5
    s.getD i 0 ^^^ ((s.getD ((x + 1) % 5 + 5 * y) 0 ^^^ u64Mask) &&& s.getD ((x + 2) % 5 + 5 * y) 0)

def keccakIota (s : List Nat) (round : Nat) : List Nat :=
  match s with
  | [] => []
  | a :: rest => (a ^^^ keccakRC.getD round 0) :: rest

def keccakF (s : List Nat) : List Nat :=
  (List.range 24).foldl (fun st r => keccakIota (keccakChi (keccakRhoPi (keccakTheta st))) r) s

def laneOfBytes (bs : List Nat) : Nat := bs.foldr (fun b acc => acc * 256 + b) 0

def bytesOfLane (v : Nat) : List Nat := (List.range 8).map fun i => (v >>> (8 * i)) &&& 255

def keccakAbsorbBlock (st block : List Nat) : List Nat :=
  let lanes := (List.range 17).map fun i => laneOfBytes ((block.drop (8 * i)).take 8)
  keccakF ((List.range 25).map fun i => st.getD i 0 ^^^ lanes.getD i 0)

/-- Legacy Keccak padding (domain byte `0x01`), as used by Ethereum. -/
def keccakPad (msg : List Nat) : List Nat :=
  let p := 136 - msg.length % 136
  if p = 1 then msg ++ [0x81]
  else msg ++ 0x01 :: List.replicate (p - 2) 0 ++ [0x80]

def keccakAbsorbLoop : Nat → List Nat → List Nat → List Nat
  | 0, st, _ => st
  | n + 1, st, bytes => keccakAbsorbLoop n (keccakAbsorbBlock st (bytes.take 136)) (bytes.drop 136)

def keccakAbsorb (st : List Nat) (padded : List Nat) : List Nat :=
  keccakAbsorbLoop (padded.length / 136) st padded

/-- Keccak-256 digest (32 bytes) of a byte string. -/
def keccakBytes (msg : List Nat) : List Nat :=
  let final := keccakAbsorb (List.replicate 25 0) (keccakPad msg)
  (List.range 4).foldr (fun i acc => bytesOfLane (final.getD i 0) ++ acc) []

/-- Keccak-256 digest as a 256-bit natural number (`crypto.Keccak256Hash`). -/
def keccak256 (msg : List Nat) : Nat := natOfBytes (keccakBytes msg)

/-! ## Civil time (Go `time.Unix(..., 0).UTC()` / `Year` / `YearDay` / `Hour`)

The proleptic-Gregorian calendar computation follows the standard
days-to-civil algorithm; it agrees with the Go `time` package on every
signed 64-bit second count. -/

/-- How Go reinterprets a `uint64` header timestamp via `int64(header.Time)`. -/
def int64OfU64 (v : Nat) : Int :=
  if v % 2 ^ 64 < 2 ^ 63 then ((v % 2 ^ 64 : Nat) : Int)
  else ((v % 2 ^ 64 : Nat) : Int) - 2 ^ 64

structure CivilTime where
  year : Int
  yearDay : Nat
  hour : Nat
deriving DecidableEq

def isLeapYear (y : Int) : Bool :=
  Int.emod y 4 == 0 && (Int.emod y 100 != 0 || Int.emod y 400 == 0)

/-- Cumulative day counts before each month in a non-leap year. -/
def cumulativeMonthDays : List Nat :=
  [0, 31, 59, 90, 120, 151, 181, 212, 243, 273, 304, 334]

/-- Year, month and day of the given day count since 1970-01-01. -/
def civilFromDays (z0 : Int) : Int × Nat × Nat :=
  let z := z0 + 719468
  let era := Int.ediv z 146097
  let doe := (Int.emod z 146097).toNat
  let yoe := (doe - doe / 1460 + doe / 36524 - doe / 146096) / 365
  let y := era * 400 + yoe
  let doy := doe - (365 * yoe + yoe / 4 - yoe / 100)
  let mp := (5 * doy + 2) / 153
  let d := doy - (153 * mp + 2) / 5 + 1
  let m := if mp < 10 then mp + 3 else mp - 9
  (y + (if m ≤ 2 then 1 else 0), m, d)

/-- UTC year, day-of-year (1-based, as `YearDay` in Go) and hour of a signed
Unix second count. -/
def civilOfSecs (secs : Int) : CivilTime :=
  let days := Int.ediv secs 86400
  let secsOfDay := (Int.emod secs 86400).toNat
  let ymd := civilFromDays days
  let y := ymd.1
  let m := ymd.2.1
  let d := ymd.2.2
  { year := y
    yearDay := cumulativeMonthDays.getD (m - 1) 0 + d + (if 2 < m && isLeapYear y then 1 else 0)
    hour := secsOfDay / 3600 }

/-! ## Hex encoding (`common.Bytes2Hex`) -/

/-- Lower-case hexadecimal digit character of `d < 16`. -/
def hexDigitChar (d : Nat) : Char :=
  Char.ofNat (if d < 10 then 48 + d else 87 + d)

def bytes2Hex (bs : List Nat) : String :=
  String.mk (bs.flatMap fun b => [hexDigitChar (b / 16), hexDigitChar (b % 16)])

/-! ## Consensus state (`ots/consensus/state.go`) -/

/-- Error values shared across the consensus and systx packages
(Go uses untyped `error` values). -/
inductive GoError where
  | errInvalidState
  | errBatchNotFound
  | errInvalidTransition
  | errAlreadyTriggered
  | errNotTriggered
  | errNotSubmitted
  | errNotConfirmed
  | errAlreadyAnchored
  | errSnapshotNotFound
  | errInvalidSnapshot
  | errNotSystemTx
  | errInvalidSender
  | errInvalidRecipient
  | errInvalidCalldata
  | errInvalidOTSTx
deriving DecidableEq

/-- Status of an OTS batch (`BatchStatus`). -/
inductive BatchStatus where
  | none
  | triggered
  | submitted
  | confirmed
  | anchored
deriving DecidableEq

/-- Transition relation of the batch status machine (`BatchStatus.CanTransitionTo`). -/
def BatchStatus.CanTransitionTo : BatchStatus → BatchStatus → Bool
  | .none, .triggered => true
  | .triggered, .submitted => true
  | .submitted, .confirmed => true
  | .confirmed, .anchored => true
  | .confirmed, .none => true
  | .anchored, .none => true
  | _, _ => false

/-- State of a single OTS batch (`BatchState`).  Unset Go fields default to
zero values, as in the Go composite literals. -/
structure BatchState where
  startBlock : Nat
  endBlock : Nat
  rootHash : Nat
  status : BatchStatus
  triggerBlock : Nat
  triggerNode : Nat
  otsDigest : Nat := 0
  submittedAt : Nat := 0
  submittedBy : Nat := 0
  btcBlockHeight : Nat := 0
  btcTxID : String := ""
  btcTimestamp : Nat := 0
  confirmedAt : Nat := 0
  confirmedBy : Nat := 0
  anchoredAt : Nat := 0
  anchoredBy : Nat := 0
deriving DecidableEq

/-- The OTS consensus state (`OTSState`). -/
structure OTSState where
  enabled : Bool
  lastAnchoredBlock : Nat
  currentBatch : Option BatchState
deriving DecidableEq

/-- Constructor `NewOTSState`. -/
def NewOTSState (enabled : Bool) : OTSState :=
  { enabled := enabled, lastAnchoredBlock := 0, currentBatch := Option.none }

/-- Go `OTSState.HasActiveBatch`: a non-nil batch whose status is not `None`. -/
def OTSState.HasActiveBatch (s : OTSState) : Bool :=
  match s.currentBatch with
  | Option.none => false
  | Option.some b =>
    match b.status with
    | BatchStatus.none => false
    | _ => true

/-- Go `OTSState.CanTrigger`. -/
def OTSState.CanTrigger (s : OTSState) : Bool :=
  s.enabled && !s.HasActiveBatch

/-- Go `OTSState.Trigger`: on failure the receiver is returned untouched
(the Go method returns before mutating). -/
def OTSState.Trigger (s : OTSState) (startBlock endBlock triggerBlock : Nat)
    (triggerNode : Nat) (rootHash : Nat) : OTSState × Option GoError :=
  if !s.CanTrigger then (s, Option.some GoError.errAlreadyTriggered)
  else
    let batch : BatchState :=
      { startBlock := startBlock
        endBlock := endBlock
        rootHash := rootHash
        status := BatchStatus.triggered
        triggerBlock := triggerBlock
        triggerNode := triggerNode }
    ({ s with currentBatch := Option.some batch }, Option.none)

/-- Go `OTSState.MarkSubmitted`. -/
def OTSState.MarkSubmitted (s : OTSState) (digest : Nat) (blockNumber : Nat)
    (submitter : Nat) : OTSState × Option GoError :=
  match s.currentBatch with
  | Option.none => (s, Option.some GoError.errNotTriggered)
  | Option.some b =>
    if b.status ≠ BatchStatus.triggered then (s, Option.some GoError.errNotTriggered)
    else if !(b.status.CanTransitionTo BatchStatus.submitted) then
      (s, Option.some GoError.errInvalidTransition)
    else
      let b2 : BatchState :=
        { b with otsDigest := digest, submittedAt := blockNumber,
                 submittedBy := submitter, status := BatchStatus.submitted }
      ({ s with currentBatch := Option.some b2 }, Option.none)

/-- Go `OTSState.MarkConfirmed`. -/
def OTSState.MarkConfirmed (s : OTSState) (btcBlockHeight : Nat) (btcTxID : String)
    (btcTimestamp blockNumber : Nat) (confirmer : Nat) : OTSState × Option GoError :=
  match s.currentBatch with
  | Option.none => (s, Option.some GoError.errNotSubmitted)
  | Option.some b =>
    if b.status ≠ BatchStatus.submitted then (s, Option.some GoError.errNotSubmitted)
    else if !(b.status.CanTransitionTo BatchStatus.confirmed) then
      (s, Option.some GoError.errInvalidTransition)
    else
      let b2 : BatchState :=
        { b with btcBlockHeight := btcBlockHeight, btcTxID := btcTxID,
                 btcTimestamp := btcTimestamp, confirmedAt := blockNumber,
                 confirmedBy := confirmer, status := BatchStatus.confirmed }
      ({ s with currentBatch := Option.some b2 }, Option.none)

/-- Go `OTSState.MarkAnchored`: records the anchor, moves `lastAnchoredBlock`
to the end block of the batch and clears the batch (the anchored fields are set on
the batch record just before the pointer is dropped, so the net effect on the
state is the cleared batch). -/
def OTSState.MarkAnchored (s : OTSState) (blockNumber : Nat)
    (anchorer : Nat) : OTSState × Option GoError :=
  match s.currentBatch with
  | Option.none => (s, Option.some GoError.errNotConfirmed)
  | Option.some b =>
    if b.status ≠ BatchStatus.confirmed then (s, Option.some GoError.errNotConfirmed)
    else if !(b.status.CanTransitionTo BatchStatus.anchored) then
      (s, Option.some GoError.errInvalidTransition)
    else
      ({ s with lastAnchoredBlock := b.endBlock, currentBatch := Option.none },
        Option.none)

/-! ## Snapshots (`ots/consensus/snapshot.go`) -/

/-- A state snapshot at a block (`Snapshot`); the transition engine always
works with snapshots whose state pointer is non-nil. -/
structure Snapshot where
  number : Nat
  hash : Nat
  state : OTSState
deriving DecidableEq

/-- Go `NewSnapshot` (the deep copy is the identity in a value semantics). -/
def NewSnapshot (number : Nat) (hash : Nat) (state : OTSState) : Snapshot :=
  { number := number, hash := hash, state := state }

/-- Go `SnapshotManager.GetGenesisSnapshot`. -/
def GetGenesisSnapshot (otsEnabled : Bool) (genesisHash : Nat) : Snapshot :=
  NewSnapshot 0 genesisHash (NewOTSState otsEnabled)

/-! ## Transition engine (`ots/consensus/transition.go`) -/

/-- Block header fields read by the engine; `hash` models `header.Hash()`. -/
structure Header where
  number : Nat
  time : Nat
  coinbase : Nat
  parentHash : Nat
  hash : Nat
deriving DecidableEq

/-- An event log (`types.Log`): emitting address, topics, data bytes. -/
structure EventLog where
  address : Nat
  topics : List Nat
  data : List Nat
deriving DecidableEq

/-- A transaction receipt (`types.Receipt`): status and logs. -/
structure Receipt where
  status : Nat
  logs : List EventLog
deriving DecidableEq

/-- `types.ReceiptStatusSuccessful`. -/
def ReceiptStatusSuccessful : Nat := 1

/-- `CopyrightRegistryAddress` = 0x0000000000000000000000000000000000009000. -/
def copyrightRegistryAddr : Nat := 0x9000

/-- `TriggerHourUTC`. -/
def TriggerHourUTC : Nat := 0

/-- Event signature hash of `OTSSubmitted(bytes32,bytes32)`. -/
def otsSubmittedEventSig : Nat := keccak256 (asciiBytes "OTSSubmitted(bytes32,bytes32)")

/-- Event signature hash of `OTSConfirmed(bytes32,uint64,bytes32,uint64)`. -/
def otsConfirmedEventSig : Nat := keccak256 (asciiBytes "OTSConfirmed(bytes32,uint64,bytes32,uint64)")

/-- Event signature hash of `Anchored(bytes32,uint64,uint64,uint64)`. -/
def anchoredEventSig : Nat := keccak256 (asciiBytes "Anchored(bytes32,uint64,uint64,uint64)")

/-- Result of `parseOTSSubmittedLog` (`OTSSubmission`). -/
structure OTSSubmission where
  rootHash : Nat
  digest : Nat
deriving DecidableEq

/-- Go `TransitionEngine.parseOTSSubmittedLog`.  Note that the parsed
`rootHash` topic is never compared with the current batch. -/
def parseOTSSubmittedLog (log : EventLog) : Option OTSSubmission :=
  if log.topics.length < 2 then Option.none
  else if log.topics.getD 0 0 ≠ otsSubmittedEventSig then Option.none
  else if log.data.length < 32 then Option.none
  else Option.some { rootHash := log.topics.getD 1 0, digest := natOfBytes (log.data.take 32) }

/-- Result of `parseOTSConfirmedLog` (`BTCConfirmation`). -/
structure BTCConfirmation where
  rootHash : Nat
  btcBlockHeight : Nat
  btcTxID : String
  btcTimestamp : Nat
deriving DecidableEq

/-- Go `TransitionEngine.parseOTSConfirmedLog`: the two `uint64` fields are
read with `common.BytesToHash(...).Big().Uint64()`, hence the `% 2 ^ 64`. -/
def parseOTSConfirmedLog (log : EventLog) : Option BTCConfirmation :=
  if log.topics.length < 2 then Option.none
  else if log.topics.getD 0 0 ≠ otsConfirmedEventSig then Option.none
  else if log.data.length < 96 then Option.none
  else Option.some
    { rootHash := log.topics.getD 1 0
      btcBlockHeight := natOfBytes (log.data.take 32) % 2 ^ 64
      btcTxID := bytes2Hex ((log.data.drop 32).take 32)
      btcTimestamp := natOfBytes ((log.data.drop 64).take 32) % 2 ^ 64 }

/-- Go `TransitionEngine.isValidAnchorLog`: this is the only event parser
that compares the `rootHash` topic with the batch. -/
def isValidAnchorLog (log : EventLog) (batch : BatchState) : Bool :=
  if log.topics.length < 2 then false
  else if log.topics.getD 0 0 ≠ anchoredEventSig then false
  else if log.topics.getD 1 0 ≠ batch.rootHash then false
  else true

/-- Inner loop of `extractOTSSubmission` over the logs of one receipt. -/
def scanLogsForSubmission : List EventLog → Option OTSSubmission
  | [] => Option.none
  | log :: rest =>
    if log.address = copyrightRegistryAddr then
      match parseOTSSubmittedLog log with
      | Option.some sub => Option.some sub
      | Option.none => scanLogsForSubmission rest
    else scanLogsForSubmission rest

/-- Go `TransitionEngine.extractOTSSubmission`: first matching log of the
first successful receipt wins. -/
def extractOTSSubmission : List Receipt → Option OTSSubmission
  | [] => Option.none
  | r :: rest =>
    if r.status ≠ ReceiptStatusSuccessful then extractOTSSubmission rest
    else
      match scanLogsForSubmission r.logs with
      | Option.some sub => Option.some sub
      | Option.none => extractOTSSubmission rest

/-- Inner loop of `extractBTCConfirmation` over the logs of one receipt. -/
def scanLogsForConfirmation : List EventLog → Option BTCConfirmation
  | [] => Option.none
  | log :: rest =>
    if log.address = copyrightRegistryAddr then
      match parseOTSConfirmedLog log with
      | Option.some conf => Option.some conf
      | Option.none => scanLogsForConfirmation rest
    else scanLogsForConfirmation rest

/-- Go `TransitionEngine.extractBTCConfirmation`. -/
def extractBTCConfirmation : List Receipt → Option BTCConfirmation
  | [] => Option.none
  | r :: rest =>
    if r.status ≠ ReceiptStatusSuccessful then extractBTCConfirmation rest
    else
      match scanLogsForConfirmation r.logs with
      | Option.some conf => Option.some conf
      | Option.none => extractBTCConfirmation rest

/-- Inner loop of `hasValidAnchorTx` over the logs of one receipt. -/
def scanLogsForAnchor (batch : BatchState) : List EventLog → Bool
  | [] => false
  | log :: rest =>
    if log.address = copyrightRegistryAddr then
      if isValidAnchorLog log batch then true else scanLogsForAnchor batch rest
    else scanLogsForAnchor batch rest

/-- Go `TransitionEngine.hasValidAnchorTx`. -/
def hasValidAnchorTx : List Receipt → BatchState → Bool
  | [], _ => false
  | r :: rest, batch =>
    if r.status ≠ ReceiptStatusSuccessful then hasValidAnchorTx rest batch
    else if scanLogsForAnchor batch r.logs then true
    else hasValidAnchorTx rest batch

/-- Go `TransitionEngine.getRUIDsFromBlock` is a placeholder in the source
and always returns nil. -/
def getRUIDsFromBlock (_blockNum : Nat) : List Nat := []

/-- RUID collection loop of `calculateRootHash`. -/
def collectRUIDs (startBlock endBlock : Nat) : List Nat :=
  (List.range (endBlock + 1 - startBlock)).flatMap fun i => getRUIDsFromBlock (startBlock + i)

/-- Leaf derivation of `buildMerkleRoot`: `leafHash = keccak256(ruid)`. -/
def merkleLeaves (ruids : List Nat) : List Nat :=
  ruids.map fun r => keccak256 (bytes32 r)

/-- One combine pass over an even-length layer: each pair is sorted
lexicographically (equals numerically on 32-byte values) and concatenated. -/
def merkleCombineLayer : List Nat → List Nat
  | a :: b :: rest =>
    (if b < a then keccak256 (bytes32 b ++ bytes32 a)
     else keccak256 (bytes32 a ++ bytes32 b)) :: merkleCombineLayer rest
  | _ => []

/-- Layer loop of `buildMerkleRoot` (`for len(currentLayer) > 1`), with the
input length as fuel: the layer at least halves each pass, so the fuel never
runs out for the lengths the loop is entered with. -/
def merkleLoop : Nat → List Nat → List Nat
  | 0, layer => layer
  | fuel + 1, layer =>
    if layer.length ≤ 1 then layer
    else
      let evened := if layer.length % 2 = 1 then layer ++ [layer.getLastD 0] else layer
      merkleLoop fuel (merkleCombineLayer evened)

/-- Go `buildMerkleRoot`: zero hash for an empty input, otherwise the last
remaining node of the duplicate-odd / sort-pair combine loop. -/
def buildMerkleRoot (ruids : List Nat) : Nat :=
  match ruids with
  | [] => 0
  | _ => (merkleLoop ruids.length (merkleLeaves ruids)).headD 0

/-- Go `TransitionEngine.calculateRootHash`: collect, sort ascending
(`bytes.Compare`), build the tree.  With the placeholder collector the
result is always the zero hash. -/
def calculateRootHash (startBlock endBlock : Nat) : Nat :=
  let ruids := collectRUIDs startBlock endBlock
  if ruids.length = 0 then 0
  else buildMerkleRoot (ruids.mergeSort fun a b => decide (a ≤ b))

/-- Go `TransitionEngine.handleTrigger`: a failing `Trigger` is logged and
ignored, which the `.1` projection reproduces. -/
def handleTrigger (state : OTSState) (header : Header) : OTSState :=
  let startBlock := state.lastAnchoredBlock + 1
  let endBlock := header.number - 1
  if endBlock < startBlock then state
  else
    (state.Trigger startBlock endBlock header.number header.coinbase
      (calculateRootHash startBlock endBlock)).1

/-- Go `TransitionEngine.isTriggerBlock`.  The year/day comparison is the
disjunction `currentYear > parentYear || currentDay > parentDay` of the
source, not a lexicographic pair comparison. -/
def isTriggerBlock (getHeader : Nat → Nat → Option Header) (header : Header) : Bool :=
  match getHeader header.parentHash (header.number - 1) with
  | Option.none => false
  | Option.some parentHeader =>
    let ct := civilOfSecs (int64OfU64 header.time)
    let pt := civilOfSecs (int64OfU64 parentHeader.time)
    if pt.year < ct.year ∨ pt.yearDay < ct.yearDay then
      decide (TriggerHourUTC ≤ ct.hour)
    else
      decide (pt.hour < TriggerHourUTC) && decide (TriggerHourUTC ≤ ct.hour)

/-- Rule 1 of `applyTransitions`: trigger. -/
def applyRule1Trigger (getHeader : Nat → Nat → Option Header) (state : OTSState)
    (header : Header) : OTSState :=
  if state.CanTrigger && isTriggerBlock getHeader header then handleTrigger state header
  else state

/-- Rule 2 of `applyTransitions`: mark submitted (errors are logged and ignored). -/
def applyRule2Submit (state : OTSState) (header : Header) (receipts : List Receipt) : OTSState :=
  match state.currentBatch with
  | Option.none => state
  | Option.some b =>
    if b.status = BatchStatus.triggered then
      match extractOTSSubmission receipts with
      | Option.some sub => (state.MarkSubmitted sub.digest header.number header.coinbase).1
      | Option.none => state
    else state

/-- Rule 3 of `applyTransitions`: mark confirmed. -/
def applyRule3Confirm (state : OTSState) (header : Header) (receipts : List Receipt) : OTSState :=
  match state.currentBatch with
  | Option.none => state
  | Option.some b =>
    if b.status = BatchStatus.submitted then
      match extractBTCConfirmation receipts with
      | Option.some conf =>
        (state.MarkConfirmed conf.btcBlockHeight conf.btcTxID conf.btcTimestamp
          header.number header.coinbase).1
      | Option.none => state
    else state

/-- Rule 4 of `applyTransitions`: mark anchored. -/
def applyRule4Anchor (state : OTSState) (header : Header) (receipts : List Receipt) : OTSState :=
  match state.currentBatch with
  | Option.none => state
  | Option.some b =>
    if b.status = BatchStatus.confirmed then
      if hasValidAnchorTx receipts b then (state.MarkAnchored header.number header.coinbase).1
      else state
    else state

/-- Go `TransitionEngine.applyTransitions`: the four rules are applied in
sequence, each on the state left by the previous one. -/
def applyTransitions (getHeader : Nat → Nat → Option Header) (state : OTSState)
    (header : Header) (receipts : List Receipt) : OTSState :=
  applyRule4Anchor
    (applyRule3Confirm
      (applyRule2Submit (applyRule1Trigger getHeader state header) header receipts)
      header receipts)
    header receipts

/-- Go `TransitionEngine.ProcessBlock` (the snapshot store call has no effect
on the returned snapshot and is omitted). -/
def processBlock (getHeader : Nat → Nat → Option Header)
    (getReceipts : Nat → Nat → List Receipt) (header : Header)
    (parentSnap : Snapshot) : Snapshot :=
  let newState := parentSnap.state
  if !newState.enabled then NewSnapshot header.number header.hash newState
  else
    NewSnapshot header.number header.hash
      (applyTransitions getHeader newState header (getReceipts header.hash header.number))

/-- Snapshots reachable by repeatedly applying `ProcessBlock` to a genesis
snapshot, for fixed chain accessors. -/
inductive ReachableSnapshot (getHeader : Nat → Nat → Option Header)
    (getReceipts : Nat → Nat → List Receipt) : Snapshot → Prop where
  | genesis (enabled : Bool) (h : Nat) :
      ReachableSnapshot getHeader getReceipts (GetGenesisSnapshot enabled h)
  | step (parent : Snapshot) (header : Header) :
      ReachableSnapshot getHeader getReceipts parent →
      ReachableSnapshot getHeader getReceipts (processBlock getHeader getReceipts header parent)

/-! ## System-transaction codec (`ots/systx`) -/

/-- The transaction fields the OTS code reads (`types.Transaction`).  The
`sender` is the address recoverable from the signature; transactions built
by `types.NewTransaction` are unsigned. -/
structure Transaction where
  nonce : Nat
  toAddr : Option Nat
  value : Nat
  gas : Nat
  gasPrice : Nat
  data : List Nat
  sender : Option Nat
deriving DecidableEq

/-- Selector of `anchor(uint64,uint64,bytes32,bytes32,uint64)` (`anchorSig`
in `builder.go`, `anchorSelector` in `ots_system_tx.go`). -/
def anchorSig : List Nat :=
  (keccakBytes (asciiBytes "anchor(uint64,uint64,bytes32,bytes32,uint64)")).take 4

/-- Selector of `otsSubmitted(bytes32,bytes32)`. -/
def OTSSubmittedSelector : List Nat :=
  (keccakBytes (asciiBytes "otsSubmitted(bytes32,bytes32)")).take 4

/-- Selector of `otsConfirmed(bytes32,uint64,bytes32,uint64)`. -/
def OTSConfirmedSelector : List Nat :=
  (keccakBytes (asciiBytes "otsConfirmed(bytes32,uint64,bytes32,uint64)")).take 4

/-- Go `Validator.ValidateSystemTx` (`builder_validator`): gas price zero,
recipient is the registry contract, at least four data bytes, and the
selector equals the `anchor` selector — nothing else is checked. -/
def validatorValidateSystemTx (contractAddress : Nat) (tx : Transaction) : Option GoError :=
  if tx.gasPrice ≠ 0 then Option.some GoError.errNotSystemTx
  else if tx.toAddr ≠ Option.some contractAddress then Option.some GoError.errInvalidRecipient
  else if tx.data.length < 4 then Option.some GoError.errInvalidCalldata
  else if tx.data.getD 0 0 ≠ anchorSig.getD 0 0 ∨ tx.data.getD 1 0 ≠ anchorSig.getD 1 0 ∨
          tx.data.getD 2 0 ≠ anchorSig.getD 2 0 ∨ tx.data.getD 3 0 ≠ anchorSig.getD 3 0 then
    Option.some GoError.errInvalidCalldata
  else Option.none

/-- Go `matchSelector`. -/
def matchSelector (a b : List Nat) : Bool :=
  if a.length < 4 ∨ b.length < 4 then false
  else decide (a.getD 0 0 = b.getD 0 0 ∧ a.getD 1 0 = b.getD 1 0 ∧
               a.getD 2 0 = b.getD 2 0 ∧ a.getD 3 0 = b.getD 3 0)

/-- Go `IsOTSSubmittedTx`. -/
def IsOTSSubmittedTx (tx : Transaction) : Bool :=
  if tx.data.length < 4 then false
  else matchSelector (tx.data.take 4) OTSSubmittedSelector

/-- Go `IsOTSConfirmedTx`. -/
def IsOTSConfirmedTx (tx : Transaction) : Bool :=
  if tx.data.length < 4 then false
  else matchSelector (tx.data.take 4) OTSConfirmedSelector

/-- Go `IsAnchorTx`. -/
def IsAnchorTx (tx : Transaction) : Bool :=
  if tx.data.length < 4 then false
  else matchSelector (tx.data.take 4) anchorSig

/-- Parameters of `otsSubmitted` (`OTSSubmittedParams`). -/
structure OTSSubmittedParams where
  rootHash : Nat
  otsDigest : Nat
deriving DecidableEq

/-- Parameters of `otsConfirmed` (`OTSConfirmedParams`); `btcTxID` is a
`[32]byte` value. -/
structure OTSConfirmedParams where
  rootHash : Nat
  btcBlockHeight : Nat
  btcTxID : Nat
  btcTimestamp : Nat
deriving DecidableEq

/-- Go `common.BigToHash(big.NewInt(int64(v)))` as used by
`BuildOTSConfirmedTx`: the `uint64` is cast to `int64`, and
`big.Int.Bytes` of a negative value yields the bytes of its absolute
value, so values above `2 ^ 63` are encoded as `2 ^ 64 - v`. -/
def bigToHashOfInt64 (i : Int) : Nat := i.natAbs % 2 ^ 256

/-- Go `Builder.BuildOTSSubmittedTx`: selector, rootHash, otsDigest; the
transaction is created by `types.NewTransaction` with zero value and zero
gas price (the `coinbase` argument does not enter the transaction). -/
def BuildOTSSubmittedTx (contractAddress : Nat) (params : OTSSubmittedParams)
    (nonce gasLimit : Nat) : Transaction :=
  { nonce := nonce
    toAddr := Option.some contractAddress
    value := 0
    gas := gasLimit
    gasPrice := 0
    data := OTSSubmittedSelector ++ bytes32 params.rootHash ++ bytes32 params.otsDigest
    sender := Option.none }

/-- Go `Builder.BuildOTSConfirmedTx`: selector, rootHash, then the two
`uint64` fields through the `int64` cast of the source, and the txid. -/
def BuildOTSConfirmedTx (contractAddress : Nat) (params : OTSConfirmedParams)
    (nonce gasLimit : Nat) : Transaction :=
  { nonce := nonce
    toAddr := Option.some contractAddress
    value := 0
    gas := gasLimit
    gasPrice := 0
    data := OTSConfirmedSelector ++ bytes32 params.rootHash
        ++ bytes32 (bigToHashOfInt64 (int64OfU64 params.btcBlockHeight))
        ++ bytes32 params.btcTxID
        ++ bytes32 (bigToHashOfInt64 (int64OfU64 params.btcTimestamp))
    sender := Option.none }

/-- Go `DecodeOTSSubmittedTx`. -/
def DecodeOTSSubmittedTx (tx : Transaction) : Except GoError OTSSubmittedParams :=
  if tx.data.length < 68 then Except.error GoError.errInvalidOTSTx
  else if !matchSelector (tx.data.take 4) OTSSubmittedSelector then
    Except.error GoError.errInvalidOTSTx
  else
    Except.ok
      { rootHash := natOfBytes ((tx.data.drop 4).take 32)
        otsDigest := natOfBytes ((tx.data.drop 36).take 32) }

/-- Go `DecodeOTSConfirmedTx`: the `uint64` fields are read with
`common.BytesToHash(...).Big().Uint64()`. -/
def DecodeOTSConfirmedTx (tx : Transaction) : Except GoError OTSConfirmedParams :=
  if tx.data.length < 132 then Except.error GoError.errInvalidOTSTx
  else if !matchSelector (tx.data.take 4) OTSConfirmedSelector then
    Except.error GoError.errInvalidOTSTx
  else
    Except.ok
      { rootHash := natOfBytes ((tx.data.drop 4).take 32)
        btcBlockHeight := natOfBytes ((tx.data.drop 36).take 32) % 2 ^ 64
        btcTxID := natOfBytes ((tx.data.drop 68).take 32)
        btcTimestamp := natOfBytes ((tx.data.drop 100).take 32) % 2 ^ 64 }

/-- Decoded `anchor` parameters (`DecodedAnchorCalldata`). -/
structure DecodedAnchorCalldata where
  startBlock : Nat
  endBlock : Nat
  rootHash : Nat
  btcTxHash : Nat
  btcTimestamp : Nat
deriving DecidableEq

/-- Go `systx.DecodeCalldata` for `anchor` calldata (the `uint64` fields via
`big.Int.SetBytes(...).Uint64()`). -/
def DecodeCalldata (data : List Nat) : Except GoError DecodedAnchorCalldata :=
  if data.length < 4 + 32 * 5 then Except.error GoError.errInvalidOTSTx
  else
    Except.ok
      { startBlock := natOfBytes ((data.drop 4).take 32) % 2 ^ 64
        endBlock := natOfBytes ((data.drop 36).take 32) % 2 ^ 64
        rootHash := natOfBytes ((data.drop 68).take 32)
        btcTxHash := natOfBytes ((data.drop 100).take 32)
        btcTimestamp := natOfBytes ((data.drop 132).take 32) % 2 ^ 64 }

/-! ## Consensus manager validation (`OTSConsensusManager.ValidateOTSSystemTx`) -/

/-- Go `OTSConsensusManager.validateOTSSubmittedTx`. -/
def validateOTSSubmittedTxM (tx : Transaction) (state : OTSState) : Option GoError :=
  match state.currentBatch with
  | Option.none => Option.some GoError.errInvalidTransition
  | Option.some b =>
    if b.status ≠ BatchStatus.triggered then Option.some GoError.errInvalidTransition
    else
      match DecodeOTSSubmittedTx tx with
      | Except.error e => Option.some e
      | Except.ok params =>
        if params.rootHash ≠ b.rootHash then Option.some GoError.errInvalidState
        else Option.none

/-- Go `OTSConsensusManager.validateOTSConfirmedTx`. -/
def validateOTSConfirmedTxM (tx : Transaction) (state : OTSState) : Option GoError :=
  match state.currentBatch with
  | Option.none => Option.some GoError.errInvalidTransition
  | Option.some b =>
    if b.status ≠ BatchStatus.submitted then Option.some GoError.errInvalidTransition
    else
      match DecodeOTSConfirmedTx tx with
      | Except.error e => Option.some e
      | Except.ok params =>
        if params.rootHash ≠ b.rootHash then Option.some GoError.errInvalidState
        else Option.none

/-- Go `OTSConsensusManager.validateAnchorTx`. -/
def validateAnchorTxM (tx : Transaction) (state : OTSState) : Option GoError :=
  match state.currentBatch with
  | Option.none => Option.some GoError.errInvalidTransition
  | Option.some b =>
    if b.status ≠ BatchStatus.confirmed then Option.some GoError.errInvalidTransition
    else
      match DecodeCalldata tx.data with
      | Except.error e => Option.some e
      | Except.ok decoded =>
        if decoded.rootHash ≠ b.rootHash then Option.some GoError.errInvalidState
        else if decoded.startBlock ≠ b.startBlock ∨ decoded.endBlock ≠ b.endBlock then
          Option.some GoError.errInvalidState
        else Option.none

/-- Go `OTSConsensusManager.ValidateOTSSystemTx`.  The snapshot lookup is
the injected `getSnapshot` accessor: a lookup error is propagated, a
snapshot with a nil state pointer is `ErrInvalidState`, and only the state
field of the snapshot is read. -/
def ValidateOTSSystemTx (enabled : Bool) (getSnapshot : Nat → Except GoError (Option OTSState))
    (tx : Transaction) (parentHash : Nat) : Option GoError :=
  if !enabled then Option.none
  else
    match getSnapshot parentHash with
    | Except.error e => Option.some e
    | Except.ok Option.none => Option.some GoError.errInvalidState
    | Except.ok (Option.some state) =>
      if IsOTSSubmittedTx tx then validateOTSSubmittedTxM tx state
      else if IsOTSConfirmedTx tx then validateOTSConfirmedTxM tx state
      else if IsAnchorTx tx then validateAnchorTxM tx state
      else Option.none

/-! ## Specification-side definitions used for comparison with the code -/

/-- Acceptance predicate that the specification asserts for
`Validator.ValidateSystemTx` (spec section 4.3): zero gas price, registry
recipient, at least four data bytes matching one of the three known
selectors, and the selector-specific minimum calldata length among the
164, 68 and 36 bytes the spec enumerates. -/
def specValidateSystemTxAccepts (contractAddress : Nat) (tx : Transaction) : Prop :=
  tx.gasPrice = 0 ∧ tx.toAddr = Option.some contractAddress ∧ 4 ≤ tx.data.length ∧
  ((matchSelector (tx.data.take 4) anchorSig = true ∧ 164 ≤ tx.data.length) ∨
   (matchSelector (tx.data.take 4) OTSSubmittedSelector = true ∧ 68 ≤ tx.data.length) ∨
   (matchSelector (tx.data.take 4) OTSConfirmedSelector = true ∧ 36 ≤ tx.data.length))

/-- Trigger predicate as the specification words it: a lexicographic
comparison of the (year, day-of-year) pairs, or the same-day hour-crossing
branch, with `H = TriggerHourUTC`. -/
def specTriggerPredicate (getHeader : Nat → Nat → Option Header) (header : Header) : Bool :=
  match getHeader header.parentHash (header.number - 1) with
  | Option.none => false
  | Option.some parentHeader =>
    let ct := civilOfSecs (int64OfU64 header.time)
    let pt := civilOfSecs (int64OfU64 parentHeader.time)
    (decide (pt.year < ct.year ∨ (pt.year = ct.year ∧ pt.yearDay < ct.yearDay)) &&
       decide (TriggerHourUTC ≤ ct.hour)) ||
    (decide (pt.year = ct.year) && decide (pt.yearDay = ct.yearDay) &&
       decide (pt.hour < TriggerHourUTC) && decide (TriggerHourUTC ≤ ct.hour))

/-! ## Concrete inputs and derived notions used by the claim theorems -/

deriving instance DecidableEq for Except

/-- Status of the current batch, `BatchStatus.none` when no batch exists. -/
def batchStatusOf (s : OTSState) : BatchStatus :=
  match s.currentBatch with
  | Option.none => BatchStatus.none
  | Option.some b => b.status

/-- Invariant relating the active batch to the anchor watermark: the
current batch, when present, always ends strictly after the last anchored
block (established by the `end < start` guard of the Trigger rule). -/
def BatchBound (s : OTSState) : Prop :=
  ∀ b, s.currentBatch = Option.some b → s.lastAnchoredBlock < b.endBlock



/-- A confirmed batch with root hash 5, a C1 witness input. -/
def c1ConfirmedBatch : BatchState :=
  { startBlock := 1, endBlock := 9, rootHash := 5, status := BatchStatus.confirmed,
    triggerBlock := 10, triggerNode := 3 }

/-- A state holding `c1ConfirmedBatch`. -/
def c1ConfirmedState : OTSState :=
  { enabled := true, lastAnchoredBlock := 0, currentBatch := Option.some c1ConfirmedBatch }

/-- Header used by the C1 theorems. -/
def c1Header : Header :=
  { number := 11, time := 0, coinbase := 2, parentHash := 0, hash := 1 }

/-- Header accessor used by the C1 theorems (no parent resolvable). -/
def c1GetHeader : Nat → Nat → Option Header := fun _ _ => Option.none

/-- A triggered batch with root hash 5, the C1 counterexample input. -/
def c1TriggeredBatch : BatchState :=
  { startBlock := 1, endBlock := 9, rootHash := 5, status := BatchStatus.triggered,
    triggerBlock := 10, triggerNode := 3 }

/-- A state holding `c1TriggeredBatch`. -/
def c1TriggeredState : OTSState :=
  { enabled := true, lastAnchoredBlock := 0, currentBatch := Option.some c1TriggeredBatch }

/-- A successful receipt carrying one `OTSSubmitted` event from the registry
whose indexed rootHash topic is 6 — NOT the root 5 of the current batch. -/
def c1MismatchReceipts : List Receipt :=
  [{ status := 1,
     logs := [{ address := 0x9000, topics := [otsSubmittedEventSig, 6],
                data := List.replicate 32 0 }] }]

/-- Parent header of the C2 counterexample: 1970-01-01 00:00:00 UTC. -/
def c2Parent : Header :=
  { number := 1, time := 0, coinbase := 0, parentHash := 0, hash := 1 }

/-- Header accessor of the C2 counterexample. -/
def c2GetHeader : Nat → Nat → Option Header := fun _ _ => Option.some c2Parent

/-- Current header of the C2 counterexample: 1970-01-02 00:00:00 UTC, so the
block crosses midnight and triggers. -/
def c2Header : Header :=
  { number := 2, time := 86400, coinbase := 9, parentHash := 1, hash := 2 }

/-- A successful receipt carrying an `OTSSubmitted` registry event, present
in the very same trigger block. -/
def c2Receipts : List Receipt :=
  [{ status := 1,
     logs := [{ address := 0x9000, topics := [otsSubmittedEventSig, 0],
                data := List.replicate 32 0 }] }]

/-- A triggered batch with root hash 5, used as a concrete C6 input. -/
def c6BatchTriggered : BatchState :=
  { startBlock := 1, endBlock := 2, rootHash := 5, status := BatchStatus.triggered,
    triggerBlock := 3, triggerNode := 4 }

/-- A state holding `c6BatchTriggered`, used as a concrete C6 input. -/
def c6TriggeredState : OTSState :=
  { enabled := true, lastAnchoredBlock := 0, currentBatch := Option.some c6BatchTriggered }

/-- A snapshot accessor resolving every hash to `c6TriggeredState`. -/
def c6GetSnap : Nat → Except GoError (Option OTSState) :=
  fun _ => Except.ok (Option.some c6TriggeredState)

/-- Parent header of the C8 counterexample: 2024-01-05 00:00:00 UTC
(year day 5). -/
def c8Parent : Header :=
  { number := 41, time := 1704412800, coinbase := 0, parentHash := 0, hash := 7 }

/-- Header accessor of the C8 counterexample. -/
def c8GetHeader : Nat → Nat → Option Header := fun _ _ => Option.some c8Parent

/-- Current header of the C8 counterexample: 2023-10-27 00:00:00 UTC
(year day 300), i.e. the chain timestamps run backwards across a year
boundary. -/
def c8Header : Header :=
  { number := 42, time := 1698364800, coinbase := 0, parentHash := 7, hash := 8 }

/-! ## C9: state operations are atomic on failure -/

/-- C9: whenever `Trigger`, `MarkSubmitted`, `MarkConfirmed` or
`MarkAnchored` returns a non-nil error, the state is exactly what it was
before the call; fields are mutated only on the nil-error path. -/
theorem state_ops_atomic_on_failure :
    (∀ (s : OTSState) (a b c d e : Nat),
      (s.Trigger a b c d e).2 ≠ Option.none → (s.Trigger a b c d e).1 = s) ∧
    (∀ (s : OTSState) (d n a : Nat),
      (s.MarkSubmitted d n a).2 ≠ Option.none → (s.MarkSubmitted d n a).1 = s) ∧
    (∀ (s : OTSState) (hgt : Nat) (txid : String) (ts n a : Nat),
      (s.MarkConfirmed hgt txid ts n a).2 ≠ Option.none →
        (s.MarkConfirmed hgt txid ts n a).1 = s) ∧
    (∀ (s : OTSState) (n a : Nat),
      (s.MarkAnchored n a).2 ≠ Option.none → (s.MarkAnchored n a).1 = s) := by
  refine ⟨?_, ?_, ?_, ?_⟩
  · intro s a b c d e h
    by_cases hc : (!s.CanTrigger) = true
    · simp [OTSState.Trigger, hc]
    · simp [OTSState.Trigger, hc] at h
  · intro s d n a h
    cases hb : s.currentBatch with
    | none => simp [OTSState.MarkSubmitted, hb]
    | some b =>
      by_cases h1 : b.status ≠ BatchStatus.triggered
      · simp [OTSState.MarkSubmitted, hb, h1]
      · by_cases h2 : (!b.status.CanTransitionTo BatchStatus.submitted) = true
        · simp [OTSState.MarkSubmitted, hb, h1, h2]
        · simp [OTSState.MarkSubmitted, hb, h1, h2] at h
  · intro s hgt txid ts n a h
    cases hb : s.currentBatch with
    | none => simp [OTSState.MarkConfirmed, hb]
    | some b =>
      by_cases h1 : b.status ≠ BatchStatus.submitted
      · simp [OTSState.MarkConfirmed, hb, h1]
      · by_cases h2 : (!b.status.CanTransitionTo BatchStatus.confirmed) = true
        · simp [OTSState.MarkConfirmed, hb, h1, h2]
        · simp [OTSState.MarkConfirmed, hb, h1, h2] at h
  · intro s n a h
    cases hb : s.currentBatch with
    | none => simp [OTSState.MarkAnchored, hb]
    | some b =>
      by_cases h1 : b.status ≠ BatchStatus.confirmed
      · simp [OTSState.MarkAnchored, hb, h1]
      · by_cases h2 : (!b.status.CanTransitionTo BatchStatus.anchored) = true
        · simp [OTSState.MarkAnchored, hb, h1, h2]
        · simp [OTSState.MarkAnchored, hb, h1, h2] at h

/-- Witness for C9 at concrete failing inputs: a disabled state cannot
trigger, and an empty state rejects the three mark operations, each leaving
the state untouched. -/
theorem state_ops_atomic_on_failure_witness :
    ((NewOTSState false).Trigger 1 2 3 4 5).1 = NewOTSState false ∧
    ((NewOTSState true).MarkSubmitted 0 1 2).1 = NewOTSState true ∧
    ((NewOTSState true).MarkConfirmed 0 "" 0 0 0).1 = NewOTSState true ∧
    ((NewOTSState true).MarkAnchored 0 0).1 = NewOTSState true :=
  ⟨state_ops_atomic_on_failure.1 (NewOTSState false) 1 2 3 4 5 (by decide),
   state_ops_atomic_on_failure.2.1 (NewOTSState true) 0 1 2 (by decide),
   state_ops_atomic_on_failure.2.2.1 (NewOTSState true) 0 "" 0 0 0 (by decide),
   state_ops_atomic_on_failure.2.2.2 (NewOTSState true) 0 0 (by decide)⟩

/-! ## Pinned selector values (checked against `crypto.Keccak256`) -/

theorem anchorSig_val : anchorSig = [0xa0, 0x51, 0x4e, 0xfe] := by decide

theorem otsSubmittedSelector_val : OTSSubmittedSelector = [0x9c, 0xb2, 0x30, 0xed] := by decide

theorem otsConfirmedSelector_val : OTSConfirmedSelector = [0x46, 0xba, 0xb7, 0x05] := by decide

/-! ## Shared list lemmas -/

theorem length_bytesOfLane (v : Nat) : (bytesOfLane v).length = 8 := by
  simp [bytesOfLane]

theorem length_keccakBytes (m : List Nat) : (keccakBytes m).length = 32 := by
  have h4 : List.range 4 = [0, 1, 2, 3] := rfl
  simp [keccakBytes, h4, length_bytesOfLane]

theorem length_anchorSig : anchorSig.length = 4 := by
  rw [anchorSig, List.length_take, length_keccakBytes]
  decide

theorem getD_take_lt (l : List Nat) (i n : Nat) (h : i < n) :
    (l.take n).getD i 0 = l.getD i 0 := by
  simp [List.getD_eq_getElem?_getD, List.getElem?_take, h]

/-- Characterization of `matchSelector` on a four-byte selector constant. -/
theorem matchSelector_take4_iff (l sel : List Nat) (h4 : 4 ≤ l.length) (hsel : sel.length = 4) :
    matchSelector (l.take 4) sel = true ↔
      (l.getD 0 0 = sel.getD 0 0 ∧ l.getD 1 0 = sel.getD 1 0 ∧
       l.getD 2 0 = sel.getD 2 0 ∧ l.getD 3 0 = sel.getD 3 0) := by
  have hlen : (l.take 4).length = 4 := by simp [List.length_take, Nat.min_eq_left h4]
  rw [matchSelector]
  rw [if_neg (by omega)]
  simp only [getD_take_lt l 0 4 (by omega), getD_take_lt l 1 4 (by omega),
    getD_take_lt l 2 4 (by omega), getD_take_lt l 3 4 (by omega), decide_eq_true_eq]

/-! ## C3: the system-transaction validator -/

/-- Unconditional characterization of the accepting runs of the validator. -/
theorem validatorValidateSystemTx_eq_none_iff (c : Nat) (tx : Transaction) :
    validatorValidateSystemTx c tx = Option.none ↔
      tx.gasPrice = 0 ∧ tx.toAddr = Option.some c ∧ ¬tx.data.length < 4 ∧
      (tx.data.getD 0 0 = anchorSig.getD 0 0 ∧ tx.data.getD 1 0 = anchorSig.getD 1 0 ∧
       tx.data.getD 2 0 = anchorSig.getD 2 0 ∧ tx.data.getD 3 0 = anchorSig.getD 3 0) := by
  unfold validatorValidateSystemTx
  split_ifs with h1 h2 h3 h4 <;> (simp_all; try tauto)

/-- C3 (amended): `Validator.ValidateSystemTx` accepts a transaction iff
its gas price is zero, its recipient is the contract address, it has at
least four data bytes and those four bytes are the `anchor` selector; a
violated check yields `ErrNotSystemTx`, `ErrInvalidRecipient` or
`ErrInvalidCalldata` in that order.  No selector-specific minimum length
beyond the selector itself is enforced, and the `otsSubmitted` /
`otsConfirmed` selectors are not recognized by this validator. -/
theorem validateSystemTx_accepts_iff (c : Nat) (tx : Transaction) :
    (validatorValidateSystemTx c tx = Option.none ↔
      tx.gasPrice = 0 ∧ tx.toAddr = Option.some c ∧ 4 ≤ tx.data.length ∧
        matchSelector (tx.data.take 4) anchorSig = true) ∧
    (tx.gasPrice ≠ 0 →
      validatorValidateSystemTx c tx = Option.some GoError.errNotSystemTx) ∧
    (tx.gasPrice = 0 → tx.toAddr ≠ Option.some c →
      validatorValidateSystemTx c tx = Option.some GoError.errInvalidRecipient) ∧
    (tx.gasPrice = 0 → tx.toAddr = Option.some c →
      ¬(4 ≤ tx.data.length ∧ matchSelector (tx.data.take 4) anchorSig = true) →
      validatorValidateSystemTx c tx = Option.some GoError.errInvalidCalldata) := by
  refine ⟨?_, ?_, ?_, ?_⟩
  · rw [validatorValidateSystemTx_eq_none_iff]
    constructor
    · rintro ⟨hg, ht, hl, hs⟩
      refine ⟨hg, ht, by omega, ?_⟩
      exact (matchSelector_take4_iff tx.data anchorSig (by omega) length_anchorSig).mpr hs
    · rintro ⟨hg, ht, hl, hs⟩
      refine ⟨hg, ht, by omega, ?_⟩
      exact (matchSelector_take4_iff tx.data anchorSig hl length_anchorSig).mp hs
  · intro h1
    simp [validatorValidateSystemTx, h1]
  · intro h1 h2
    simp [validatorValidateSystemTx, h1, h2]
  · intro h1 h2 h3
    unfold validatorValidateSystemTx
    rw [if_neg (by simp [h1]), if_neg (by simp [h2])]
    by_cases hl : tx.data.length < 4
    · rw [if_pos hl]
    · rw [if_neg hl]
      rw [if_pos ?_]
      have := mt (matchSelector_take4_iff tx.data anchorSig (by omega) length_anchorSig).mpr
        (fun hm => h3 ⟨by omega, hm⟩)
      tauto

/-- Witness for the amended C3 at a concrete accepted transaction whose
calldata is exactly the four anchor selector bytes. -/
theorem validateSystemTx_accepts_iff_witness :
    validatorValidateSystemTx 0x9000
      { nonce := 0, toAddr := Option.some 0x9000, value := 0, gas := 100000,
        gasPrice := 0, data := anchorSig, sender := Option.none } = Option.none :=
  (validateSystemTx_accepts_iff 0x9000 _).1.mpr
    (by
      refine ⟨rfl, rfl, ?_, ?_⟩ <;>
        · simp only [anchorSig_val]
          decide)

/-- C3 counterexample: a zero-gas-price transaction to the registry whose
calldata is only the four anchor selector bytes is accepted by the code,
while the predicate of the specification (known selector plus selector-specific
minimum length of 164, 68 or 36 bytes) rejects it; so the claimed
equivalence fails at this input. -/
theorem validateSystemTx_spec_mismatch :
    validatorValidateSystemTx 0x9000
      { nonce := 0, toAddr := Option.some 0x9000, value := 0, gas := 100000,
        gasPrice := 0, data := anchorSig, sender := Option.none } = Option.none ∧
    ¬ specValidateSystemTxAccepts 0x9000
      { nonce := 0, toAddr := Option.some 0x9000, value := 0, gas := 100000,
        gasPrice := 0, data := anchorSig, sender := Option.none } := by
  constructor
  · simp only [validatorValidateSystemTx, anchorSig_val]
    decide
  · simp only [specValidateSystemTxAccepts, anchorSig_val, otsSubmittedSelector_val,
      otsConfirmedSelector_val, matchSelector]
    decide

/-! ## C5: calldata round-trips -/


/-- C5: `BuildOTSConfirmedTx` casts its `uint64` parameters through `int64`
before `big.NewInt`, so `btcBlockHeight = 2^64 - 1` is encoded as the
absolute value `1`; decoding returns `1`, not the original field, breaking
the claimed round-trip on the full 64-bit range. -/
theorem buildOTSConfirmedTx_roundTrip_fails :
    DecodeOTSConfirmedTx (BuildOTSConfirmedTx 0x9000
        { rootHash := 0, btcBlockHeight := 2 ^ 64 - 1, btcTxID := 0, btcTimestamp := 0 }
        0 100000) =
      Except.ok { rootHash := 0, btcBlockHeight := 1, btcTxID := 0, btcTimestamp := 0 } ∧
    (1 : Nat) ≠ 2 ^ 64 - 1 := by
  constructor
  · simp only [BuildOTSConfirmedTx, DecodeOTSConfirmedTx, otsConfirmedSelector_val]
    decide
  · decide

/-! ## C10: which transactions `ValidateOTSSystemTx` can reject -/

/-- C10 (amended): a disabled manager accepts everything; when enabled and
the parent snapshot resolves to a non-nil state, every transaction matching
none of the three selectors is accepted; a non-matching transaction can be
rejected only because the snapshot lookup failed or the snapshot state was
nil. -/
theorem validateOTSSystemTx_nonmatching (gs : Nat → Except GoError (Option OTSState))
    (tx : Transaction) (p : Nat) :
    (ValidateOTSSystemTx false gs tx p = Option.none) ∧
    (∀ st : OTSState, gs p = Except.ok (Option.some st) →
      IsOTSSubmittedTx tx = false → IsOTSConfirmedTx tx = false → IsAnchorTx tx = false →
      ValidateOTSSystemTx true gs tx p = Option.none) ∧
    (ValidateOTSSystemTx true gs tx p ≠ Option.none →
      IsOTSSubmittedTx tx = true ∨ IsOTSConfirmedTx tx = true ∨ IsAnchorTx tx = true ∨
        (∃ e, gs p = Except.error e) ∨ gs p = Except.ok Option.none) := by
  refine ⟨rfl, ?_, ?_⟩
  · intro st hsnap h1 h2 h3
    simp [ValidateOTSSystemTx, hsnap, h1, h2, h3]
  · intro hne
    unfold ValidateOTSSystemTx at hne
    cases hgs : gs p with
    | error e => exact Or.inr (Or.inr (Or.inr (Or.inl ⟨e, rfl⟩)))
    | ok o =>
      cases o with
      | none => exact Or.inr (Or.inr (Or.inr (Or.inr rfl)))
      | some st =>
        simp only [hgs, Bool.not_true, if_false] at hne
        by_cases h1 : IsOTSSubmittedTx tx = true
        · exact Or.inl h1
        · by_cases h2 : IsOTSConfirmedTx tx = true
          · exact Or.inr (Or.inl h2)
          · by_cases h3 : IsAnchorTx tx = true
            · exact Or.inr (Or.inr (Or.inl h3))
            · simp [h1, h2, h3] at hne

/-- Witness for the amended C10: an enabled manager with a resolvable
snapshot accepts a transaction with empty calldata. -/
theorem validateOTSSystemTx_nonmatching_witness :
    ValidateOTSSystemTx true (fun _ => Except.ok (Option.some (NewOTSState true)))
      { nonce := 0, toAddr := Option.none, value := 0, gas := 0, gasPrice := 1,
        data := [], sender := Option.none } 0 = Option.none :=
  (validateOTSSystemTx_nonmatching (fun _ => Except.ok (Option.some (NewOTSState true)))
      { nonce := 0, toAddr := Option.none, value := 0, gas := 0, gasPrice := 1,
        data := [], sender := Option.none } 0).2.1
    (NewOTSState true) rfl (by decide) (by decide) (by decide)

/-- C10 counterexample: when the manager is enabled but the parent snapshot
is missing, a transaction matching none of the three selectors is rejected
with the lookup error, contradicting the claim that such transactions are
always accepted. -/
theorem validateOTSSystemTx_rejects_nonmatching_on_missing_snapshot :
    ValidateOTSSystemTx true (fun _ => Except.error GoError.errSnapshotNotFound)
      { nonce := 0, toAddr := Option.none, value := 0, gas := 0, gasPrice := 0,
        data := [], sender := Option.none } 0 =
      Option.some GoError.errSnapshotNotFound ∧
    IsOTSSubmittedTx
      { nonce := 0, toAddr := Option.none, value := 0, gas := 0, gasPrice := 0,
        data := [], sender := Option.none } = false ∧
    IsOTSConfirmedTx
      { nonce := 0, toAddr := Option.none, value := 0, gas := 0, gasPrice := 0,
        data := [], sender := Option.none } = false ∧
    IsAnchorTx
      { nonce := 0, toAddr := Option.none, value := 0, gas := 0, gasPrice := 0,
        data := [], sender := Option.none } = false := by
  refine ⟨rfl, by decide, by decide, by decide⟩

/-! ## C6: what `ValidateOTSSystemTx` enforces for recognized transactions -/

/-- C6 (amended): the manager validator never examines the transaction
sender (so no sender-equals-coinbase check exists), and for each of the
three recognized selectors a decoded `rootHash` different from
`currentBatch.rootHash` is rejected. -/
theorem validateOTSSystemTx_root_match_no_sender_check :
    (∀ (en : Bool) (gs : Nat → Except GoError (Option OTSState)) (tx : Transaction)
        (p : Nat) (a : Option Nat),
      ValidateOTSSystemTx en gs { tx with sender := a } p = ValidateOTSSystemTx en gs tx p) ∧
    (∀ (gs : Nat → Except GoError (Option OTSState)) (tx : Transaction) (p : Nat)
        (st : OTSState) (b : BatchState) (params : OTSSubmittedParams),
      gs p = Except.ok (Option.some st) → st.currentBatch = Option.some b →
      b.status = BatchStatus.triggered → IsOTSSubmittedTx tx = true →
      DecodeOTSSubmittedTx tx = Except.ok params → params.rootHash ≠ b.rootHash →
      ValidateOTSSystemTx true gs tx p = Option.some GoError.errInvalidState) ∧
    (∀ (gs : Nat → Except GoError (Option OTSState)) (tx : Transaction) (p : Nat)
        (st : OTSState) (b : BatchState) (params : OTSConfirmedParams),
      gs p = Except.ok (Option.some st) → st.currentBatch = Option.some b →
      b.status = BatchStatus.submitted → IsOTSSubmittedTx tx = false →
      IsOTSConfirmedTx tx = true →
      DecodeOTSConfirmedTx tx = Except.ok params → params.rootHash ≠ b.rootHash →
      ValidateOTSSystemTx true gs tx p = Option.some GoError.errInvalidState) ∧
    (∀ (gs : Nat → Except GoError (Option OTSState)) (tx : Transaction) (p : Nat)
        (st : OTSState) (b : BatchState) (decoded : DecodedAnchorCalldata),
      gs p = Except.ok (Option.some st) → st.currentBatch = Option.some b →
      b.status = BatchStatus.confirmed → IsOTSSubmittedTx tx = false →
      IsOTSConfirmedTx tx = false → IsAnchorTx tx = true →
      DecodeCalldata tx.data = Except.ok decoded → decoded.rootHash ≠ b.rootHash →
      ValidateOTSSystemTx true gs tx p = Option.some GoError.errInvalidState) := by
  refine ⟨?_, ?_, ?_, ?_⟩
  · intro en gs tx p a
    rfl
  · intro gs tx p st b params hsnap hb hstat hsub hdec hne
    simp [ValidateOTSSystemTx, hsnap, hsub, validateOTSSubmittedTxM, hb, hstat, hdec, hne]
  · intro gs tx p st b params hsnap hb hstat hsub hconf hdec hne
    simp [ValidateOTSSystemTx, hsnap, hsub, hconf, validateOTSConfirmedTxM, hb, hstat, hdec, hne]
  · intro gs tx p st b decoded hsnap hb hstat hsub hconf hanc hdec hne
    simp [ValidateOTSSystemTx, hsnap, hsub, hconf, hanc, validateAnchorTxM, hb, hstat, hdec, hne]

/-- Witness for the amended C6: a recognized `otsSubmitted` transaction
whose rootHash slot decodes to 7 while the root of the triggered batch is 5 is
rejected with `ErrInvalidState`. -/
theorem validateOTSSystemTx_root_match_witness :
    ValidateOTSSystemTx true c6GetSnap
      { nonce := 0, toAddr := Option.some 0x9000, value := 0, gas := 100000, gasPrice := 0,
        data := OTSSubmittedSelector ++ bytes32 7 ++ bytes32 0, sender := Option.none } 0 =
      Option.some GoError.errInvalidState :=
  validateOTSSystemTx_root_match_no_sender_check.2.1 c6GetSnap _ 0 c6TriggeredState
    c6BatchTriggered { rootHash := 7, otsDigest := 0 }
    rfl rfl rfl
    (by simp only [IsOTSSubmittedTx, otsSubmittedSelector_val]; decide)
    (by simp only [DecodeOTSSubmittedTx, otsSubmittedSelector_val]; decide)
    (by decide)

/-- C6 counterexample: the manager validator accepts the same recognized
`otsSubmitted` transaction under two different senders (here 11 and 12), so
it cannot be enforcing that the originating address equals any block
coinbase. -/
theorem validateOTSSystemTx_ignores_sender :
    ValidateOTSSystemTx true c6GetSnap
      { nonce := 0, toAddr := Option.some 0x9000, value := 0, gas := 100000, gasPrice := 0,
        data := OTSSubmittedSelector ++ bytes32 5 ++ bytes32 0, sender := Option.some 11 } 0 =
      Option.none ∧
    ValidateOTSSystemTx true c6GetSnap
      { nonce := 0, toAddr := Option.some 0x9000, value := 0, gas := 100000, gasPrice := 0,
        data := OTSSubmittedSelector ++ bytes32 5 ++ bytes32 0, sender := Option.some 12 } 0 =
      Option.none ∧
    (11 : Nat) ≠ 12 := by
  refine ⟨?_, ?_, by decide⟩ <;>
    · simp only [ValidateOTSSystemTx, c6GetSnap, c6TriggeredState, c6BatchTriggered,
        IsOTSSubmittedTx, IsOTSConfirmedTx, IsAnchorTx,
        validateOTSSubmittedTxM, DecodeOTSSubmittedTx, otsSubmittedSelector_val,
        otsConfirmedSelector_val, anchorSig_val]
      decide

/-! ## C8: the trigger predicate -/

/-- C8 (amended): with a resolvable parent header, `isTriggerBlock` is true
iff `currentYear > parentYear` OR `currentDay > parentDay` (the plain disjunction of the source, not a lexicographic pair comparison); the hour guard
`currentHour ≥ 0` is vacuous and the same-day branch (`parentHour < 0`)
can never fire, so no same-day clause appears; a missing parent header
makes the predicate false. -/
theorem isTriggerBlock_iff (gh : Nat → Nat → Option Header) (h : Header) :
    isTriggerBlock gh h = true ↔
      ∃ p, gh h.parentHash (h.number - 1) = Option.some p ∧
        ((civilOfSecs (int64OfU64 p.time)).year < (civilOfSecs (int64OfU64 h.time)).year ∨
         (civilOfSecs (int64OfU64 p.time)).yearDay < (civilOfSecs (int64OfU64 h.time)).yearDay) := by
  unfold isTriggerBlock
  cases hm : gh h.parentHash (h.number - 1) with
  | none => simp
  | some p =>
    dsimp only
    split_ifs with hc
    · simp [TriggerHourUTC, hc]
    · simp [TriggerHourUTC, hc, Nat.not_lt_zero]

/-- C8 counterexample: with a parent timestamp of 2024-01-05 and a current
timestamp of 2023-10-27 the disjunction of the code fires (`currentDay 300 >
parentDay 5`) although the lexicographic comparison
`(2023, 300) > (2024, 5)` is false; so the claimed equivalence fails. -/
theorem isTriggerBlock_not_lexicographic :
    isTriggerBlock c8GetHeader c8Header = true ∧
    specTriggerPredicate c8GetHeader c8Header = false := by
  constructor
  · decide
  · decide

/-- Witness for the amended C8 at the concrete midnight-crossing pair of
headers used above (the right-hand side holds because day 300 exceeds
day 5). -/
theorem isTriggerBlock_iff_witness :
    isTriggerBlock c8GetHeader c8Header = true :=
  (isTriggerBlock_iff c8GetHeader c8Header).mpr ⟨c8Parent, rfl, by decide⟩

/-! ## C4: the Merkle root of a single-RUID batch -/

section

attribute [local irreducible] keccak256

/-- C4 (amended): for a one-element RUID list the layer loop never runs, so
the root is the bare leaf `keccak256(ruid)` — no self-combination occurs. -/
theorem buildMerkleRoot_singleton (r : Nat) :
    buildMerkleRoot [r] = keccak256 (bytes32 r) := rfl

end

/-- C4 counterexample: for the single RUID `0` the root computed by the code is the leaf
itself, which differs from the self-combined value
`keccak256(leaf ‖ leaf)` (the sorted pair of two equal leaves is their
plain concatenation). -/
theorem buildMerkleRoot_singleton_ne_self_combined :
    buildMerkleRoot [0] ≠
      keccak256 (bytes32 (keccak256 (bytes32 0)) ++ bytes32 (keccak256 (bytes32 0))) := by
  decide

/-! ## Pinned event signature values -/

theorem otsSubmittedEventSig_val :
    otsSubmittedEventSig =
      0xc268f8963d533238f85d1f063802c45ed4f5c0890d176d90de8b4950330891e0 := by decide

theorem otsConfirmedEventSig_val :
    otsConfirmedEventSig =
      0x25b98f801a5deb2b57642ff413c84d987d2dd51e43f76c21299a6226dd1e630c := by decide

theorem anchoredEventSig_val :
    anchoredEventSig =
      0xc7b7657485e949afa7f139bf4412dd0b481aa39f9243643faf8f2603ea9c8368 := by decide

/-! ## C1: which events the transition rules react to -/

theorem isValidAnchorLog_eq_true_iff (log : EventLog) (batch : BatchState) :
    isValidAnchorLog log batch = true ↔
      2 ≤ log.topics.length ∧ log.topics.getD 0 0 = anchoredEventSig ∧
      log.topics.getD 1 0 = batch.rootHash := by
  unfold isValidAnchorLog
  split_ifs with h1 h2 h3
  · simp only [false_iff]
    rintro ⟨hl, -, -⟩
    omega
  · simp only [false_iff]
    rintro ⟨-, hc, -⟩
    exact h2 hc
  · simp only [false_iff]
    rintro ⟨-, -, hc⟩
    exact h3 hc
  · simp only [true_iff]
    exact ⟨by omega, not_not.mp h2, not_not.mp h3⟩

theorem scanLogsForAnchor_eq_true_iff (batch : BatchState) (logs : List EventLog) :
    scanLogsForAnchor batch logs = true ↔
      ∃ log ∈ logs, log.address = copyrightRegistryAddr ∧ isValidAnchorLog log batch = true := by
  induction logs with
  | nil => simp [scanLogsForAnchor]
  | cons l rest ih =>
    unfold scanLogsForAnchor
    split_ifs with ha hv
    · simp only [true_iff]
      exact ⟨l, List.mem_cons_self _ _, ha, hv⟩
    · rw [ih]
      constructor
      · rintro ⟨x, hx, hax, hvx⟩
        exact ⟨x, List.mem_cons_of_mem _ hx, hax, hvx⟩
      · rintro ⟨x, hx, hax, hvx⟩
        rcases List.mem_cons.mp hx with rfl | hx'
        · exact absurd hvx (by simpa using hv)
        · exact ⟨x, hx', hax, hvx⟩
    · rw [ih]
      constructor
      · rintro ⟨x, hx, hax, hvx⟩
        exact ⟨x, List.mem_cons_of_mem _ hx, hax, hvx⟩
      · rintro ⟨x, hx, hax, hvx⟩
        rcases List.mem_cons.mp hx with rfl | hx'
        · exact absurd hax ha
        · exact ⟨x, hx', hax, hvx⟩

theorem hasValidAnchorTx_eq_true_iff (receipts : List Receipt) (batch : BatchState) :
    hasValidAnchorTx receipts batch = true ↔
      ∃ r ∈ receipts, r.status = ReceiptStatusSuccessful ∧ ∃ log ∈ r.logs,
        log.address = copyrightRegistryAddr ∧ isValidAnchorLog log batch = true := by
  induction receipts with
  | nil => simp [hasValidAnchorTx]
  | cons r rest ih =>
    unfold hasValidAnchorTx
    split_ifs with hs hscan
    · rw [ih]
      constructor
      · rintro ⟨x, hx, hsx, hlog⟩
        exact ⟨x, List.mem_cons_of_mem _ hx, hsx, hlog⟩
      · rintro ⟨x, hx, hsx, hlog⟩
        rcases List.mem_cons.mp hx with rfl | hx'
        · exact absurd hsx hs
        · exact ⟨x, hx', hsx, hlog⟩
    · simp only [true_iff]
      exact ⟨r, List.mem_cons_self _ _, not_ne_iff.mp hs,
        (scanLogsForAnchor_eq_true_iff batch r.logs).mp hscan⟩
    · rw [ih]
      constructor
      · rintro ⟨x, hx, hsx, hlog⟩
        exact ⟨x, List.mem_cons_of_mem _ hx, hsx, hlog⟩
      · rintro ⟨x, hx, hsx, hlog⟩
        rcases List.mem_cons.mp hx with rfl | hx'
        · exact absurd ((scanLogsForAnchor_eq_true_iff batch x.logs).mpr hlog) hscan
        · exact ⟨x, hx', hsx, hlog⟩

theorem applyRule1Trigger_active (gh : Nat → Nat → Option Header) (s : OTSState)
    (b : BatchState) (h : Header) (hb : s.currentBatch = Option.some b)
    (hstat : b.status ≠ BatchStatus.none) : applyRule1Trigger gh s h = s := by
  unfold applyRule1Trigger
  have hct : s.CanTrigger = false := by
    unfold OTSState.CanTrigger OTSState.HasActiveBatch
    rw [hb]
    cases hbs : b.status
    · exact absurd hbs hstat
    all_goals simp
  simp [hct]

theorem applyRule2Submit_not_triggered (s : OTSState) (b : BatchState) (h : Header)
    (rs : List Receipt) (hb : s.currentBatch = Option.some b)
    (hstat : b.status ≠ BatchStatus.triggered) : applyRule2Submit s h rs = s := by
  simp [applyRule2Submit, hb, hstat]

theorem applyRule3Confirm_not_submitted (s : OTSState) (b : BatchState) (h : Header)
    (rs : List Receipt) (hb : s.currentBatch = Option.some b)
    (hstat : b.status ≠ BatchStatus.submitted) : applyRule3Confirm s h rs = s := by
  simp [applyRule3Confirm, hb, hstat]

theorem applyRule4Anchor_confirmed (s : OTSState) (b : BatchState) (h : Header)
    (rs : List Receipt) (hb : s.currentBatch = Option.some b)
    (hstat : b.status = BatchStatus.confirmed) :
    applyRule4Anchor s h rs =
      if hasValidAnchorTx rs b then
        { s with lastAnchoredBlock := b.endBlock, currentBatch := Option.none }
      else s := by
  by_cases hv : hasValidAnchorTx rs b
  · simp [applyRule4Anchor, OTSState.MarkAnchored, hb, hstat, hv, BatchStatus.CanTransitionTo]
  · simp [applyRule4Anchor, hb, hstat, hv]

/-- C1 (amended): for a block applied while the current batch is Confirmed,
the state changes iff some successful receipt carries an `Anchored` event
from the registry whose indexed `rootHash` topic equals
`currentBatch.rootHash` (the root check of Rule 4); a mismatched `Anchored`
event leaves the state unchanged, and when the rule fires the batch is
anchored and cleared.  (The Submit and Confirm rules, by contrast, do not
compare the rootHash topic — see the counterexample.) -/
theorem anchor_rule_fires_only_on_root_match (gh : Nat → Nat → Option Header)
    (s : OTSState) (b : BatchState) (h : Header) (rs : List Receipt)
    (hb : s.currentBatch = Option.some b) (hstat : b.status = BatchStatus.confirmed) :
    (applyTransitions gh s h rs = s ↔
      ¬∃ r ∈ rs, r.status = ReceiptStatusSuccessful ∧ ∃ log ∈ r.logs,
        log.address = copyrightRegistryAddr ∧ 2 ≤ log.topics.length ∧
        log.topics.getD 0 0 = anchoredEventSig ∧ log.topics.getD 1 0 = b.rootHash) ∧
    (applyTransitions gh s h rs ≠ s →
      applyTransitions gh s h rs =
        { s with lastAnchoredBlock := b.endBlock, currentBatch := Option.none }) := by
  have h1 : applyRule1Trigger gh s h = s :=
    applyRule1Trigger_active gh s b h hb (by simp [hstat])
  have h2 : applyRule2Submit s h rs = s :=
    applyRule2Submit_not_triggered s b h rs hb (by simp [hstat])
  have h3 : applyRule3Confirm s h rs = s :=
    applyRule3Confirm_not_submitted s b h rs hb (by simp [hstat])
  have h4 := applyRule4Anchor_confirmed s b h rs hb hstat
  have hiff : hasValidAnchorTx rs b = true ↔
      (∃ r ∈ rs, r.status = ReceiptStatusSuccessful ∧ ∃ log ∈ r.logs,
        log.address = copyrightRegistryAddr ∧ 2 ≤ log.topics.length ∧
        log.topics.getD 0 0 = anchoredEventSig ∧ log.topics.getD 1 0 = b.rootHash) := by
    rw [hasValidAnchorTx_eq_true_iff]
    constructor
    · rintro ⟨r, hr, hsr, log, hl, ha, hval⟩
      obtain ⟨hlen, h0, hroot⟩ := (isValidAnchorLog_eq_true_iff log b).mp hval
      exact ⟨r, hr, hsr, log, hl, ha, hlen, h0, hroot⟩
    · rintro ⟨r, hr, hsr, log, hl, ha, hlen, h0, hroot⟩
      exact ⟨r, hr, hsr, log, hl, ha,
        (isValidAnchorLog_eq_true_iff log b).mpr ⟨hlen, h0, hroot⟩⟩
  have hne : ({ s with lastAnchoredBlock := b.endBlock, currentBatch := Option.none } :
      OTSState) ≠ s := by
    intro he
    have hcb := congrArg OTSState.currentBatch he
    simp [hb] at hcb
  unfold applyTransitions
  rw [h1, h2, h3, h4]
  by_cases hv : hasValidAnchorTx rs b
  · rw [if_pos hv]
    exact ⟨iff_of_false hne (not_not_intro (hiff.mp hv)), fun _ => rfl⟩
  · rw [if_neg hv]
    exact ⟨iff_of_true rfl (fun hex => hv (hiff.mpr hex)), fun hc => absurd rfl hc⟩

/-- Witness for the amended C1: with no receipts at all, a Confirmed state
is left unchanged by the block. -/
theorem anchor_rule_fires_only_on_root_match_witness :
    applyTransitions c1GetHeader c1ConfirmedState c1Header [] = c1ConfirmedState :=
  (anchor_rule_fires_only_on_root_match c1GetHeader c1ConfirmedState c1ConfirmedBatch
      c1Header [] rfl rfl).1.mpr (by simp)

/-- C1 counterexample: an `OTSSubmitted` event whose rootHash topic (6)
differs from `currentBatch.rootHash` (5) still fires the Submit rule — the
state changes to Submitted — contradicting the claim that all of Rules 2-4
ignore mismatched events. -/
theorem submit_rule_fires_on_mismatched_root :
    applyTransitions c1GetHeader c1TriggeredState c1Header c1MismatchReceipts ≠
      c1TriggeredState ∧
    Option.map BatchState.status
      (applyTransitions c1GetHeader c1TriggeredState c1Header
        c1MismatchReceipts).currentBatch = Option.some BatchStatus.submitted ∧
    (6 : Nat) ≠ c1TriggeredBatch.rootHash := by decide

/-! ## C2: how many rules can fire in one block -/

theorem applyRule1Trigger_step (gh : Nat → Nat → Option Header) (s : OTSState) (h : Header) :
    applyRule1Trigger gh s h = s ∨
      (batchStatusOf s).CanTransitionTo (batchStatusOf (applyRule1Trigger gh s h)) = true := by
  unfold applyRule1Trigger
  split_ifs with hc
  · unfold handleTrigger
    dsimp only
    split_ifs with he
    · exact Or.inl rfl
    · right
      have hct : s.CanTrigger = true := by
        have hparts : s.CanTrigger = true ∧ isTriggerBlock gh h = true := by simpa using hc
        exact hparts.1
      have hs0 : batchStatusOf s = BatchStatus.none := by
        cases hbv : s.currentBatch with
        | none => simp [batchStatusOf, hbv]
        | some b =>
          cases hbs : b.status
          · simp [batchStatusOf, hbv, hbs]
          all_goals
            exfalso
          all_goals
            have hcc := hct
          all_goals
            simp [OTSState.CanTrigger, OTSState.HasActiveBatch, hbv, hbs] at hcc
      rw [hs0]
      simp [OTSState.Trigger, hct, batchStatusOf, BatchStatus.CanTransitionTo]
  · exact Or.inl rfl

theorem applyRule2Submit_step (s : OTSState) (h : Header) (rs : List Receipt) :
    applyRule2Submit s h rs = s ∨
      (batchStatusOf s).CanTransitionTo (batchStatusOf (applyRule2Submit s h rs)) = true := by
  unfold applyRule2Submit
  cases hb : s.currentBatch with
  | none => exact Or.inl rfl
  | some b =>
    dsimp only
    split_ifs with hstat
    · cases hex : extractOTSSubmission rs with
      | none => exact Or.inl rfl
      | some sub =>
        right
        simp [OTSState.MarkSubmitted, hb, hstat, batchStatusOf, BatchStatus.CanTransitionTo]
    · exact Or.inl rfl

theorem applyRule3Confirm_step (s : OTSState) (h : Header) (rs : List Receipt) :
    applyRule3Confirm s h rs = s ∨
      (batchStatusOf s).CanTransitionTo (batchStatusOf (applyRule3Confirm s h rs)) = true := by
  unfold applyRule3Confirm
  cases hb : s.currentBatch with
  | none => exact Or.inl rfl
  | some b =>
    dsimp only
    split_ifs with hstat
    · cases hex : extractBTCConfirmation rs with
      | none => exact Or.inl rfl
      | some conf =>
        right
        simp [OTSState.MarkConfirmed, hb, hstat, batchStatusOf, BatchStatus.CanTransitionTo]
    · exact Or.inl rfl

theorem applyRule4Anchor_step (s : OTSState) (h : Header) (rs : List Receipt) :
    applyRule4Anchor s h rs = s ∨
      (batchStatusOf s).CanTransitionTo (batchStatusOf (applyRule4Anchor s h rs)) = true := by
  unfold applyRule4Anchor
  cases hb : s.currentBatch with
  | none => exact Or.inl rfl
  | some b =>
    dsimp only
    split_ifs with hstat hv
    · right
      simp [OTSState.MarkAnchored, hb, hstat, batchStatusOf, BatchStatus.CanTransitionTo]
    · exact Or.inl rfl
    · exact Or.inl rfl

/-- C2 (amended): the four rules run in sequence on the evolving state;
each rule either leaves its input unchanged or advances the batch status by
exactly one valid transition of the status machine — but several rules may
fire in the same block, because the guard of each rule reads the status as
already modified by the previous rules (see the counterexample). -/
theorem rules_advance_single_valid_steps (gh : Nat → Nat → Option Header) (s : OTSState)
    (h : Header) (rs : List Receipt) :
    (applyRule1Trigger gh s h = s ∨
      (batchStatusOf s).CanTransitionTo
        (batchStatusOf (applyRule1Trigger gh s h)) = true) ∧
    (applyRule2Submit (applyRule1Trigger gh s h) h rs = applyRule1Trigger gh s h ∨
      (batchStatusOf (applyRule1Trigger gh s h)).CanTransitionTo
        (batchStatusOf (applyRule2Submit (applyRule1Trigger gh s h) h rs)) = true) ∧
    (applyRule3Confirm (applyRule2Submit (applyRule1Trigger gh s h) h rs) h rs =
        applyRule2Submit (applyRule1Trigger gh s h) h rs ∨
      (batchStatusOf (applyRule2Submit (applyRule1Trigger gh s h) h rs)).CanTransitionTo
        (batchStatusOf (applyRule3Confirm
          (applyRule2Submit (applyRule1Trigger gh s h) h rs) h rs)) = true) ∧
    (applyRule4Anchor (applyRule3Confirm
        (applyRule2Submit (applyRule1Trigger gh s h) h rs) h rs) h rs =
        applyRule3Confirm (applyRule2Submit (applyRule1Trigger gh s h) h rs) h rs ∨
      (batchStatusOf (applyRule3Confirm
          (applyRule2Submit (applyRule1Trigger gh s h) h rs) h rs)).CanTransitionTo
        (batchStatusOf (applyRule4Anchor (applyRule3Confirm
          (applyRule2Submit (applyRule1Trigger gh s h) h rs) h rs) h rs)) = true) ∧
    applyTransitions gh s h rs =
      applyRule4Anchor (applyRule3Confirm
        (applyRule2Submit (applyRule1Trigger gh s h) h rs) h rs) h rs :=
  ⟨applyRule1Trigger_step gh s h,
   applyRule2Submit_step _ h rs,
   applyRule3Confirm_step _ h rs,
   applyRule4Anchor_step _ h rs,
   rfl⟩

/-- C2 counterexample: starting from an enabled empty state, the Trigger
rule fires (midnight crossing) and then the Submit rule also fires on the
receipts of the same block — two state-changing rules in a single
`applyTransitions` call, so the guards of the rules are not mutually exclusive
over the block. -/
theorem trigger_and_submit_fire_in_one_block :
    applyRule1Trigger c2GetHeader (NewOTSState true) c2Header ≠ NewOTSState true ∧
    applyRule2Submit (applyRule1Trigger c2GetHeader (NewOTSState true) c2Header)
        c2Header c2Receipts ≠
      applyRule1Trigger c2GetHeader (NewOTSState true) c2Header ∧
    applyTransitions c2GetHeader (NewOTSState true) c2Header c2Receipts =
      applyRule2Submit (applyRule1Trigger c2GetHeader (NewOTSState true) c2Header)
        c2Header c2Receipts := by decide

/-! ## C7: `lastAnchoredBlock` is non-decreasing along chains -/

theorem applyRule1Trigger_bound (gh : Nat → Nat → Option Header) (s : OTSState)
    (h : Header) (hs : BatchBound s) :
    BatchBound (applyRule1Trigger gh s h) ∧
    (applyRule1Trigger gh s h).lastAnchoredBlock = s.lastAnchoredBlock := by
  unfold applyRule1Trigger
  split_ifs with hc
  · unfold handleTrigger
    dsimp only
    split_ifs with he
    · exact ⟨hs, rfl⟩
    · unfold OTSState.Trigger
      split_ifs with hct
    
      · exact ⟨hs, rfl⟩
      · constructor
        · intro b hb
          simp only [Option.some.injEq] at hb
          subst hb
          show s.lastAnchoredBlock < h.number - 1
          omega
        · rfl
  · exact ⟨hs, rfl⟩

theorem applyRule2Submit_bound (s : OTSState) (h : Header) (rs : List Receipt)
    (hs : BatchBound s) :
    BatchBound (applyRule2Submit s h rs) ∧
    (applyRule2Submit s h rs).lastAnchoredBlock = s.lastAnchoredBlock := by
  unfold applyRule2Submit
  cases hb : s.currentBatch with
  | none => exact ⟨hs, rfl⟩
  | some b =>
    dsimp only
    split_ifs with hstat
    · cases hex : extractOTSSubmission rs with
      | none => exact ⟨hs, rfl⟩
      | some sub =>
        unfold OTSState.MarkSubmitted
        rw [hb]
        dsimp only
        split_ifs with h1 h2
        · exact ⟨hs, rfl⟩
        · exact ⟨hs, rfl⟩
        · constructor
          · intro b' hb'
            simp only [Option.some.injEq] at hb'
            subst hb'
            show s.lastAnchoredBlock < b.endBlock
            exact hs b hb
          · rfl
    · exact ⟨hs, rfl⟩

theorem applyRule3Confirm_bound (s : OTSState) (h : Header) (rs : List Receipt)
    (hs : BatchBound s) :
    BatchBound (applyRule3Confirm s h rs) ∧
    (applyRule3Confirm s h rs).lastAnchoredBlock = s.lastAnchoredBlock := by
  unfold applyRule3Confirm
  cases hb : s.currentBatch with
  | none => exact ⟨hs, rfl⟩
  | some b =>
    dsimp only
    split_ifs with hstat
    · cases hex : extractBTCConfirmation rs with
      | none => exact ⟨hs, rfl⟩
      | some conf =>
        unfold OTSState.MarkConfirmed
        rw [hb]
        dsimp only
        split_ifs with h1 h2
        · exact ⟨hs, rfl⟩
        · exact ⟨hs, rfl⟩
        · constructor
          · intro b' hb'
            simp only [Option.some.injEq] at hb'
            subst hb'
            show s.lastAnchoredBlock < b.endBlock
            exact hs b hb
          · rfl
    · exact ⟨hs, rfl⟩

theorem applyRule4Anchor_bound (s : OTSState) (h : Header) (rs : List Receipt)
    (hs : BatchBound s) :
    BatchBound (applyRule4Anchor s h rs) ∧
    s.lastAnchoredBlock ≤ (applyRule4Anchor s h rs).lastAnchoredBlock := by
  unfold applyRule4Anchor
  cases hb : s.currentBatch with
  | none => exact ⟨hs, Nat.le_refl _⟩
  | some b =>
    dsimp only
    split_ifs with hstat hv
    · unfold OTSState.MarkAnchored
      rw [hb]
      dsimp only
      split_ifs with h1 h2
      · exact ⟨hs, Nat.le_refl _⟩
      · exact ⟨hs, Nat.le_refl _⟩
      · constructor
        · intro b' hb'
          simp at hb'
        · exact Nat.le_of_lt (hs b hb)
    · exact ⟨hs, Nat.le_refl _⟩
    · exact ⟨hs, Nat.le_refl _⟩

theorem applyTransitions_bound (gh : Nat → Nat → Option Header) (s : OTSState)
    (h : Header) (rs : List Receipt) (hs : BatchBound s) :
    BatchBound (applyTransitions gh s h rs) ∧
    s.lastAnchoredBlock ≤ (applyTransitions gh s h rs).lastAnchoredBlock := by
  obtain ⟨hb1, he1⟩ := applyRule1Trigger_bound gh s h hs
  obtain ⟨hb2, he2⟩ := applyRule2Submit_bound _ h rs hb1
  obtain ⟨hb3, he3⟩ := applyRule3Confirm_bound _ h rs hb2
  obtain ⟨hb4, he4⟩ := applyRule4Anchor_bound _ h rs hb3
  unfold applyTransitions
  exact ⟨hb4, by omega⟩

theorem processBlock_bound (gh : Nat → Nat → Option Header)
    (gr : Nat → Nat → List Receipt) (hd : Header) (snap : Snapshot)
    (hs : BatchBound snap.state) :
    BatchBound (processBlock gh gr hd snap).state ∧
    snap.state.lastAnchoredBlock ≤ (processBlock gh gr hd snap).state.lastAnchoredBlock := by
  unfold processBlock
  dsimp only
  split_ifs with he
  · exact ⟨hs, Nat.le_refl _⟩
  · exact applyTransitions_bound gh snap.state hd (gr hd.hash hd.number) hs

theorem reachable_batchBound (gh : Nat → Nat → Option Header)
    (gr : Nat → Nat → List Receipt) (snap : Snapshot)
    (h : ReachableSnapshot gh gr snap) : BatchBound snap.state := by
  induction h with
  | genesis en hh =>
    intro b hb
    simp [GetGenesisSnapshot, NewSnapshot, NewOTSState] at hb
  | step parent header hp ih =>
    exact (processBlock_bound gh gr header parent ih).1

/-- C7: along every chain of snapshots obtained by repeatedly applying
`ProcessBlock` to a genesis snapshot, `lastAnchoredBlock` never decreases:
for every reachable parent snapshot and every further block, the watermark of the child is at least that of the parent.  (It moves only when `MarkAnchored`
sets it to the `endBlock` of the batch, which the Trigger rule fixed at a value
of at least `lastAnchoredBlock + 1`.) -/
theorem lastAnchoredBlock_monotone (gh : Nat → Nat → Option Header)
    (gr : Nat → Nat → List Receipt) (snap : Snapshot)
    (hreach : ReachableSnapshot gh gr snap) (header : Header) :
    snap.state.lastAnchoredBlock ≤
      (processBlock gh gr header snap).state.lastAnchoredBlock :=
  (processBlock_bound gh gr header snap (reachable_batchBound gh gr snap hreach)).2

/-- Witness for C7: one step from an enabled genesis snapshot. -/
theorem lastAnchoredBlock_monotone_witness :
    (GetGenesisSnapshot true 0).state.lastAnchoredBlock ≤
      (processBlock (fun _ _ => Option.none) (fun _ _ => [])
        { number := 1, time := 0, coinbase := 0, parentHash := 0, hash := 1 }
        (GetGenesisSnapshot true 0)).state.lastAnchoredBlock :=
  lastAnchoredBlock_monotone (fun _ _ => Option.none) (fun _ _ => [])
    (GetGenesisSnapshot true 0) (ReachableSnapshot.genesis true 0)
    { number := 1, time := 0, coinbase := 0, parentHash := 0, hash := 1 }
